import Mathlib

/-!
Verification of the Avro → JSON Schema converter and AsyncAPI document
assembler of `scripts/generate_asyncapi.py`.

The script manipulates untyped JSON-like trees (Python dicts, lists,
strings, numbers, booleans, `None`).  We embed those values as the
inductive type `JValue`; Python dicts become association lists with
insertion order preserved (matching CPython dict semantics), and failing
dict subscripts (`d[k]` raising `KeyError`, or subscripting a non-dict
raising `TypeError`) become `Except.error`.
-/

set_option maxHeartbeats 1600000

/-- A JSON-like value, the shape of data the script traverses.  Objects keep
their entries in insertion order, as Python dicts do. -/
inductive JValue where
  | null : JValue
  | bool (b : Bool) : JValue
  | num (n : Int) : JValue
  | str (s : String) : JValue
  | arr (elems : List JValue) : JValue
  | obj (entries : List (String × JValue)) : JValue

/-- Python equality of a JSON value with the string `"null"` (the union
null-marker test `t != "null"` on line 99: only the string `"null"` itself
compares equal to `"null"`). -/
def isNullMarker : JValue → Bool
  | .str s => s = "null"
  | _ => false

/-- First-match lookup in an association list, the model of `d.get(k)` /
`k in d` on a Python dict (dict keys are unique, so first match is the
match). -/
def jlookup : List (String × JValue) → String → Option JValue
  | [], _ => none
  | (k, v) :: rest, key => if k = key then some v else jlookup rest key

/-- Python truthiness of a JSON value (`if x:`). -/
def JValue.truthy : JValue → Bool
  | .null => false
  | .bool b => b
  | .num n => n != 0
  | .str s => !s.isEmpty
  | .arr l => !l.isEmpty
  | .obj l => !l.isEmpty

/-- Truthiness of `d.get(k)` (missing key gives `None`, which is falsy). -/
def truthyOpt : Option JValue → Bool
  | none => false
  | some v => v.truthy

/-- Model of `k in d` on a Python dict. -/
def hasKey (l : List (String × JValue)) (k : String) : Bool :=
  (jlookup l k).isSome

/-- Model of Python dict assignment `d[k] = v`: replace in place if the key
is present (keeping its position), otherwise append at the end. -/
def dictSet : List (String × JValue) → String → JValue → List (String × JValue)
  | [], k, v => [(k, v)]
  | (k0, v0) :: rest, k, v =>
      if k0 = k then (k0, v) :: rest else (k0, v0) :: dictSet rest k v

/-- Dict assignment lifted to a `JValue` known to be an object (the script
only ever assigns into dicts produced by `convert_type`, which always
returns a dict; on any other constructor this is unreachable and we return
the value unchanged). -/
def jSet (v : JValue) (k : String) (x : JValue) : JValue :=
  match v with
  | .obj l => .obj (dictSet l k x)
  | other => other

/-- Attribute access on a nested value: `some` when the value is an object
containing the key.  Used to state claims about paths into generated
documents. -/
def jGet? (v : JValue) (k : String) : Option JValue :=
  match v with
  | .obj l => jlookup l k
  | _ => none

/-- The script's `avro_type_map` dict (line 44): primitive Avro kind name →
JSON Schema type string. -/
def avro_type_map : List (String × String) :=
  [("string", "string"), ("int", "integer"), ("long", "integer"),
   ("float", "number"), ("double", "number"), ("boolean", "boolean"),
   ("bytes", "string"), ("null", "null")]

/-- First-match lookup in the primitive table (`avro_type in avro_type_map`
then `avro_type_map[avro_type]`). -/
def tblLookup : List (String × String) → String → Option String
  | [], _ => none
  | (k, v) :: rest, key => if k = key then some v else tblLookup rest key

/-- Python comparison `d.get("type") == k` for a string literal `k`: true
exactly when the key is present and holds that string. -/
def typeIs (d : List (String × JValue)) (k : String) : Bool :=
  match jlookup d "type" with
  | some (.str s) => s = k
  | _ => false

/-- Python comparison `d.get("logicalType") == k` for a string literal `k`. -/
def logicalIs (d : List (String × JValue)) (k : String) : Bool :=
  match jlookup d "logicalType" with
  | some (.str s) => s = k
  | _ => false

/-- The script's field-optionality test (line 115):
`isinstance(field_type, list) and "null" in field_type`. -/
def isOptionalType : JValue → Bool
  | .arr alts => alts.any isNullMarker
  | _ => false

/-- Assembly of the final record fragment (lines 128-137): `result` starts
as `{type: object, properties: ...}`, gains `required` when the list is
non-empty, and gains `description` when the record's `doc` is truthy. -/
def recordResult (record : List (String × JValue))
    (props : List (String × JValue)) (req : List String) : JValue :=
  let result := [("type", JValue.str "object"), ("properties", JValue.obj props)]
  let result := if req.isEmpty then result
                else dictSet result "required" (.arr (req.map JValue.str))
  let result := match jlookup record "doc" with
    | some doc => if doc.truthy then dictSet result "description" doc else result
    | none => result
  .obj result

theorem jlookup_sizeOf {l : List (String × JValue)} {k : String} {v : JValue}
    (h : jlookup l k = some v) : sizeOf v < sizeOf l := by
  induction l with
  | nil => simp [jlookup] at h
  | cons hd tl ih =>
      simp only [jlookup] at h
      split at h
      · cases h
        cases hd
        simp
        omega
      · have := ih h
        cases hd
        simp
        omega

/-- The bare-string arm of `convert_type` (lines 56-59): a primitive kind
name maps through `avro_type_map`, anything unknown falls back to
`{"type": "string"}`. -/
def primFrag (s : String) : JValue :=
  match tblLookup avro_type_map s with
  | some t => .obj [("type", .str t)]
  | none => .obj [("type", .str "string")]

/-- The non-recursive tail of `convert_type`'s mapping arm (lines 74-95 and
the line-104 fallback): enum, the recognized logical types, bytes, long and
int with a truthy logical tag, and the conservative fallback, checked in
the source's order.  Reached only after the record/array/map checks have
failed. -/
def leafConvert (d : List (String × JValue)) : Except String JValue :=
  if typeIs d "enum" then
    match jlookup d "symbols" with
    | some syms => .ok (.obj [("type", .str "string"), ("enum", syms)])
    | none => .error "KeyError: symbols"
  else if logicalIs d "timestamp-millis" then
    .ok (.obj [("type", .str "string"), ("format", .str "date-time")])
  else if logicalIs d "date" then
    .ok (.obj [("type", .str "string"), ("format", .str "date")])
  else if logicalIs d "decimal" then
    .ok (.obj [("type", .str "string"),
               ("description", .str "Decimal value as string")])
  else if typeIs d "bytes" then .ok (.obj [("type", .str "string")])
  else if typeIs d "long" then
    if truthyOpt (jlookup d "logicalType") then
      .ok (.obj [("type", .str "string"), ("format", .str "date-time")])
    else .ok (.obj [("type", .str "integer")])
  else if typeIs d "int" then
    if truthyOpt (jlookup d "logicalType") then
      .ok (.obj [("type", .str "string"), ("format", .str "date")])
    else .ok (.obj [("type", .str "integer")])
  else .ok (.obj [("type", .str "string")])

/-- Decoration of a converted field property (lines 121-124): attach
`description` when the field's `doc` is truthy, then `default` when a
non-`None` default is present. -/
def decorateProp (fobj : List (String × JValue)) (prop0 : JValue) : JValue :=
  let prop1 := match jlookup fobj "doc" with
    | some doc => if doc.truthy then jSet prop0 "description" doc else prop0
    | none => prop0
  match jlookup fobj "default" with
  | some dv => match dv with
      | .null => prop1
      | dv => jSet prop1 "default" dv
  | none => prop1

/-- The `required` update of the field loop (lines 115-118): append the
field's name exactly when `not is_optional and "default" not in field`. -/
def reqUpdate (fobj : List (String × JValue)) (fieldType : JValue)
    (req : List String) (fieldName : String) : List String :=
  if !isOptionalType fieldType && !hasKey fobj "default" then req ++ [fieldName]
  else req

mutual

/-- Model of `convert_type` (lines 55-104).  The three `isinstance` arms of
the Python function become the three non-wildcard constructor cases; the
`if`-chain on `avro_type.get(...)` keeps the source's order, with the
recursive record/array/map arms here and the non-recursive tail in
`leafConvert`; `d["items"]` and `d["values"]` raise `KeyError` when
absent, modelled as `Except.error`. -/
def convertType : JValue → Except String JValue
  | .str s => .ok (primFrag s)
  | .obj d =>
      if typeIs d "record" then convertRecord d
      else if typeIs d "array" then
        match hi : jlookup d "items" with
        | some items =>
            (convertType items).map
              (fun inner => .obj [("type", .str "array"), ("items", inner)])
        | none => .error "KeyError: items"
      else if typeIs d "map" then
        match hv : jlookup d "values" with
        | some vals =>
            (convertType vals).map
              (fun inner => .obj [("type", .str "object"), ("additionalProperties", inner)])
        | none => .error "KeyError: values"
      else leafConvert d
  | .arr alts =>
      match hf : alts.filter (fun t => !isNullMarker t) with
      | [inner] => convertType inner
      | _ => .ok (.obj [("type", .str "string")])
  | _ => .ok (.obj [("type", .str "string")])
termination_by t => 3 * sizeOf t + 2
decreasing_by
  all_goals try (have h1 := jlookup_sizeOf hi)
  all_goals try (have h1 := jlookup_sizeOf hv)
  all_goals try (have h1 : inner ∈ alts.filter (fun t => !isNullMarker t) := by rw [hf]; exact List.mem_singleton.mpr rfl)
  all_goals try (have h2 := List.sizeOf_lt_of_mem ((List.mem_filter.mp h1).1))
  all_goals simp at *
  all_goals omega

/-- Model of `convert_record` (lines 106-137).  `record.get("fields", [])`
defaults to an empty field list; a non-list `fields` value is modelled as a
`TypeError` (in the source, iterating such a value raises `TypeError` or
`KeyError` at the first element; the degenerate empty string/mapping, which
the source would iterate zero times, is outside every schema shape the
claims concern). -/
def convertRecord (record : List (String × JValue)) : Except String JValue :=
  match hfv : jlookup record "fields" with
  | some (.arr fields) =>
      match convertFields fields [] [] with
      | .ok (props, req) => .ok (recordResult record props req)
      | .error e => .error e
  | some _ => .error "TypeError: record fields value is not a list"
  | none => .ok (recordResult record [] [])
termination_by 3 * sizeOf record + 1
decreasing_by
  all_goals try (have h1 := jlookup_sizeOf hfv)
  all_goals simp at *
  all_goals omega

/-- Model of the field loop of `convert_record` (lines 110-126), with the
`properties` and `required` accumulators made explicit.  Per field:
`field["name"]` and then `field["type"]` raise `KeyError` when absent (a
non-mapping field raises `TypeError` at `field["name"]`); the field joins
`required` per `reqUpdate`, and the converted property is decorated per
`decorateProp`.  A non-string field name (which Python would accept as a
dict key) is outside the `String`-keyed object model and is reported as an
error; no claim involves such a field. -/
def convertFields (fields : List JValue) (props : List (String × JValue))
    (req : List String) : Except String (List (String × JValue) × List String) :=
  match fields with
  | [] => .ok (props, req)
  | field :: rest =>
      match field with
      | .obj fobj =>
          match hn : jlookup fobj "name" with
          | none => .error "KeyError: name"
          | some nameVal =>
              match ht : jlookup fobj "type" with
              | none => .error "KeyError: type"
              | some fieldType =>
                  match nameVal with
                  | .str fieldName =>
                      match convertType fieldType with
                      | .ok prop0 =>
                          convertFields rest
                            (dictSet props fieldName (decorateProp fobj prop0))
                            (reqUpdate fobj fieldType req fieldName)
                      | .error e => .error e
                  | _ => .error "field name is not a string"
      | _ => .error "TypeError: field is not a mapping"
termination_by 3 * sizeOf fields
decreasing_by
  all_goals try (have h1 := jlookup_sizeOf ht)
  all_goals simp at *
  all_goals omega

end


/-- Model of `avro_to_json_schema` (lines 42-139): the entry point simply
runs `convert_record` on the root schema mapping. -/
def avro_to_json_schema (avro_schema : List (String × JValue)) : Except String JValue :=
  convertRecord avro_schema

theorem convertType_str (s : String) : convertType (.str s) = .ok (primFrag s) := by
  rw [convertType]

theorem convertType_null : convertType .null = .ok (.obj [("type", .str "string")]) := by
  rw [convertType]
  all_goals intro a h
  all_goals exact JValue.noConfusion h

theorem convertType_bool (b : Bool) :
    convertType (.bool b) = .ok (.obj [("type", .str "string")]) := by
  rw [convertType]
  all_goals intro a h
  all_goals exact JValue.noConfusion h

theorem convertType_num (n : Int) :
    convertType (.num n) = .ok (.obj [("type", .str "string")]) := by
  rw [convertType]
  all_goals intro a h
  all_goals exact JValue.noConfusion h

theorem convertType_arr (alts : List JValue) :
    convertType (.arr alts) = (match alts.filter (fun t => !isNullMarker t) with
      | [inner] => convertType inner
      | _ => Except.ok (.obj [("type", .str "string")])) := by
  rw [convertType]
  split
  next inner hf => rw [hf]
  next hf =>
    rcases hfe : alts.filter (fun t => !isNullMarker t) with _ | ⟨a, _ | ⟨b, m⟩⟩
    · rfl
    · exact (hf a hfe).elim
    · rfl

theorem convertType_obj (d : List (String × JValue)) :
    convertType (.obj d) = (
      if typeIs d "record" then convertRecord d
      else if typeIs d "array" then
        match jlookup d "items" with
        | some items =>
            (convertType items).map
              (fun inner => .obj [("type", .str "array"), ("items", inner)])
        | none => .error "KeyError: items"
      else if typeIs d "map" then
        match jlookup d "values" with
        | some vals =>
            (convertType vals).map
              (fun inner => .obj [("type", .str "object"), ("additionalProperties", inner)])
        | none => .error "KeyError: values"
      else leafConvert d) := by
  rw [convertType]
  split_ifs with h1 h2 h3
  · rfl
  · split
    next items hi => rw [hi]
    next hi => rw [hi]
  · split
    next vals hv => rw [hv]
    next hv => rw [hv]
  · rfl

theorem convertRecord_eq (record : List (String × JValue)) :
    convertRecord record = (match jlookup record "fields" with
      | some (.arr fields) =>
          (match convertFields fields [] [] with
           | .ok (props, req) => .ok (recordResult record props req)
           | .error e => .error e)
      | some _ => .error "TypeError: record fields value is not a list"
      | none => .ok (recordResult record [] [])) := by
  rw [convertRecord]
  split
  next fields hfv => rw [hfv]
  next val hne hfv =>
    rw [hfv]
    rcases val with _ | b | n | s | elems | entries
    · rfl
    · rfl
    · rfl
    · rfl
    · exact (hne elems rfl).elim
    · rfl
  next hfv => rw [hfv]

theorem convertFields_nil (props : List (String × JValue)) (req : List String) :
    convertFields [] props req = .ok (props, req) := by
  rw [convertFields]

theorem convertFields_cons (field : JValue) (rest : List JValue)
    (props : List (String × JValue)) (req : List String) :
    convertFields (field :: rest) props req = (match field with
      | .obj fobj =>
          (match jlookup fobj "name" with
           | none => .error "KeyError: name"
           | some nameVal =>
               match jlookup fobj "type" with
               | none => .error "KeyError: type"
               | some fieldType =>
                   match nameVal with
                   | .str fieldName =>
                       (match convertType fieldType with
                        | .ok prop0 =>
                            convertFields rest
                              (dictSet props fieldName (decorateProp fobj prop0))
                              (reqUpdate fobj fieldType req fieldName)
                        | .error e => .error e)
                   | _ => .error "field name is not a string")
      | _ => .error "TypeError: field is not a mapping") := by
  rcases field with _ | b | n | s | elems | fobj
  any_goals (simp only [convertFields])
  split
  next hn => rw [hn]
  next nameVal hn =>
    conv_rhs => rw [hn]
    split
    next ht => conv_rhs => rw [ht]
    next fieldType ht =>
      conv_rhs => rw [ht]
      rcases nameVal with _ | b2 | n2 | s2 | e2 | o2 <;> rfl

theorem fieldStep (fobj : List (String × JValue)) (rest : List JValue)
    (props : List (String × JValue)) (req : List String)
    (fieldName : String) (fieldType prop0 : JValue)
    (hn : jlookup fobj "name" = some (.str fieldName))
    (ht : jlookup fobj "type" = some fieldType)
    (hc : convertType fieldType = .ok prop0) :
    convertFields (.obj fobj :: rest) props req
      = convertFields rest (dictSet props fieldName (decorateProp fobj prop0))
          (reqUpdate fobj fieldType req fieldName) := by
  rw [convertFields_cons]
  simp only [hn, ht, hc]

theorem convertRecord_fields_ok (record : List (String × JValue)) (fields : List JValue)
    (props : List (String × JValue)) (req : List String)
    (hf : jlookup record "fields" = some (.arr fields))
    (hcf : convertFields fields [] [] = .ok (props, req)) :
    convertRecord record = .ok (recordResult record props req) := by
  rw [convertRecord_eq, hf]
  simp only [hcf]

/-- The name a field contributes to the `required` list, when it does: the
field is a mapping with a string `name` and a `type`, its type is not a
union containing the null-marker, and it has no default (lines 115-118).
`none` for every other field. -/
def fieldRequiredName (f : JValue) : Option String :=
  match f with
  | .obj fobj =>
      match jlookup fobj "name" with
      | some (.str n) =>
          match jlookup fobj "type" with
          | some t =>
              if !isOptionalType t && !hasKey fobj "default" then some n else none
          | none => none
      | _ => none
  | _ => none

/-- The names of the fields whose derived optionality flag is false, in
declaration order: the reference value for the `required` list. -/
def requiredNames (fields : List JValue) : List String :=
  fields.filterMap fieldRequiredName

theorem convertFields_req (fields : List JValue) :
    ∀ (props props' : List (String × JValue)) (req req' : List String),
      convertFields fields props req = .ok (props', req') →
      req' = req ++ requiredNames fields := by
  induction fields with
  | nil =>
      intro props props' req req' h
      rw [convertFields_nil] at h
      cases h
      simp [requiredNames]
  | cons field rest ih =>
      intro props props' req req' h
      rw [convertFields_cons] at h
      rcases field with _ | b | n | s | elems | fobj
      · simp at h
      · simp at h
      · simp at h
      · simp at h
      · simp at h
      · rcases hn : jlookup fobj "name" with _ | nameVal
        · simp only [hn] at h; simp at h
        · simp only [hn] at h
          rcases ht : jlookup fobj "type" with _ | fieldType
          · simp only [ht] at h; simp at h
          · simp only [ht] at h
            rcases nameVal with _ | b2 | n2 | s2 | e2 | o2
            · simp at h
            · simp at h
            · simp at h
            · rcases hc : convertType fieldType with e | prop0
              · simp only [hc] at h; simp at h
              · simp only [hc] at h
                have hr := ih _ _ _ _ h
                rw [hr]
                simp only [requiredNames, List.filterMap_cons, fieldRequiredName, hn, ht,
                  reqUpdate]
                split
                · simp
                · simp
            · simp at h
            · simp at h

theorem recordResult_required (record props : List (String × JValue)) (req : List String) :
    jGet? (recordResult record props req) "required" =
      (if req = [] then none else some (.arr (req.map JValue.str))) := by
  unfold recordResult jGet?
  rcases req with _ | ⟨r, rs⟩
  · rcases hdoc : jlookup record "doc" with _ | doc
    · simp +decide [jlookup]
    · by_cases hv : doc.truthy
      · simp +decide [hv, dictSet, jlookup]
      · simp +decide [hv, jlookup]
  · rcases hdoc : jlookup record "doc" with _ | doc
    · simp +decide [dictSet, jlookup]
    · by_cases hv : doc.truthy
      · simp +decide [hv, dictSet, jlookup]
      · simp +decide [hv, dictSet, jlookup]

/-- The `schemaFormat` content-type string used for Avro payloads in the
producer spec (lines 168 and 175). -/
def avroMime : String := "application/vnd.apache.avro+json;version=1.9.0"

/-- The registry locator for the channel's subject used as an externalized
reference (line 177): `{registry_url}/subjects/orders.created-value/versions/latest/schema`. -/
def ordersSubjectUrl (registry_url : String) : String :=
  registry_url ++ "/subjects/orders.created-value/versions/latest/schema"

/-- The producer document's `info.description` f-string (lines 186-197). -/
def producerDescription (registry_url : String) : String :=
  "## Order Producer Service\n\nThis service generates order events and publishes them to Kafka.\n\n### Events Published\n\n- **OrderCreated**: Emitted when a new order is placed\n\n### Schema Registry\n\nEvents use Avro schemas registered in the Redpanda Schema Registry: `"
    ++ registry_url ++ "`\n"

/-- Python `d.get(k, default)` on a JSON value (line 229's
`order_created.get("doc", ...)`; the schema documents the script loads are
mappings). -/
def jGetD (v : JValue) (k : String) (dflt : JValue) : JValue :=
  match v with
  | .obj l => (jlookup l k).getD dflt
  | _ => dflt

/-- Model of `generate_producer_spec` (lines 142-235).  `localSchema` is the
document loaded from `schemas/order_created.avsc` (line 156); `fetched` is
the result of `fetch_schema_from_registry` (lines 31-39), the collaborator
that returns `None` on URL errors — it is consulted only when `inline` is
set.  The second component collects the warning the function prints to
stderr when inlining was requested but the fetch returned nothing truthy
(line 165); the registry fetch helper's own stderr warning stays with that
collaborator.  Python's `if fetched_schema:` is a truthiness test, so a
fetched falsy document is also treated as a failed fetch. -/
def generate_producer_spec (localSchema : JValue) (registry_url : String)
    (inline : Bool) (fetched : Option JValue) : JValue × List String :=
  let fetchOk := truthyOpt fetched
  let order_created := if inline && fetchOk then fetched.getD localSchema else localSchema
  let warnings := if inline && !fetchOk
                  then ["Warning: Could not fetch from registry, using local file"]
                  else ([] : List String)
  let payload : JValue :=
    if inline then
      .obj [("schemaFormat", .str avroMime), ("schema", order_created)]
    else
      .obj [("schemaFormat", .str avroMime),
            ("schema", .obj [("$ref", .str (ordersSubjectUrl registry_url))])]
  (.obj [
    ("asyncapi", .str "3.0.0"),
    ("info", .obj [
      ("title", .str "Order Producer Service"),
      ("version", .str "1.0.0"),
      ("description", .str (producerDescription registry_url))]),
    ("defaultContentType", .str "application/vnd.apache.avro+json"),
    ("servers", .obj [
      ("development", .obj [
        ("host", .str "localhost:19092"),
        ("protocol", .str "kafka"),
        ("description", .str "Local Redpanda broker")])]),
    ("channels", .obj [
      ("orders.created", .obj [
        ("address", .str "orders.created"),
        ("description", .str "Topic for newly created order events"),
        ("messages", .obj [
          ("OrderCreated", .obj [("$ref", .str "#/components/messages/OrderCreated")])])])]),
    ("operations", .obj [
      ("publishOrderCreated", .obj [
        ("action", .str "send"),
        ("channel", .obj [("$ref", .str "#/channels/orders.created")]),
        ("summary", .str "Publish a new order event"),
        ("messages", .arr [.obj [("$ref", .str "#/channels/orders.created/messages/OrderCreated")]])])]),
    ("components", .obj [
      ("messages", .obj [
        ("OrderCreated", .obj [
          ("name", .str "OrderCreated"),
          ("title", .str "Order Created Event"),
          ("summary", jGetD order_created "doc" (.str "Event emitted when a new order is placed")),
          ("contentType", .str "application/vnd.apache.avro+json"),
          ("payload", payload)])])])], warnings)

/-- The path `components.messages.OrderCreated.payload` into an assembled
document, used to state claims about the message payload. -/
def messagePayload (doc : JValue) : Option JValue :=
  (jGet? doc "components").bind (fun c =>
    (jGet? c "messages").bind (fun m =>
      (jGet? m "OrderCreated").bind (fun msg => jGet? msg "payload")))

theorem typeIs_eq (d : List (String × JValue)) (k : String)
    (h : jlookup d "type" = some (.str k)) : ∀ r, typeIs d r = decide (k = r) := by
  intro r
  unfold typeIs
  rw [h]

theorem logicalIs_eq (d : List (String × JValue)) (k : String)
    (h : jlookup d "logicalType" = some (.str k)) :
    ∀ r, logicalIs d r = decide (k = r) := by
  intro r
  unfold logicalIs
  rw [h]

theorem typeIs_unique {d : List (String × JValue)} {a b : String}
    (h : typeIs d a = true) (hne : a ≠ b) : typeIs d b = false := by
  unfold typeIs at h ⊢
  rcases hl : jlookup d "type" with _ | v
  · rfl
  · rw [hl] at h
    rcases v with _ | _ | _ | s | _ | _
    all_goals simp_all

/-- Claim C8: for every primitive kind name given as a bare string, conversion
returns exactly the fixed table's JSON Schema type (string→string,
int→integer, long→integer, float→number, double→number, boolean→boolean,
bytes→string, null→null), and for any unknown kind name it returns
`{"type": "string"}` without raising. -/
theorem c8_primitive_table :
    convertType (.str "string") = .ok (.obj [("type", .str "string")])
  ∧ convertType (.str "int") = .ok (.obj [("type", .str "integer")])
  ∧ convertType (.str "long") = .ok (.obj [("type", .str "integer")])
  ∧ convertType (.str "float") = .ok (.obj [("type", .str "number")])
  ∧ convertType (.str "double") = .ok (.obj [("type", .str "number")])
  ∧ convertType (.str "boolean") = .ok (.obj [("type", .str "boolean")])
  ∧ convertType (.str "bytes") = .ok (.obj [("type", .str "string")])
  ∧ convertType (.str "null") = .ok (.obj [("type", .str "null")])
  ∧ ∀ s : String, tblLookup avro_type_map s = none →
      convertType (.str s) = .ok (.obj [("type", .str "string")]) := by
  refine ⟨?_, ?_, ?_, ?_, ?_, ?_, ?_, ?_, ?_⟩
  all_goals try (rw [convertType_str]; rfl)
  intro s hs
  rw [convertType_str]
  unfold primFrag
  rw [hs]

/-- Witness for C8 at the concrete unknown kind name `"uuid"`. -/
theorem c8_witness :
    tblLookup avro_type_map "uuid" = none
  ∧ convertType (.str "uuid") = .ok (.obj [("type", .str "string")]) :=
  ⟨rfl, c8_primitive_table.2.2.2.2.2.2.2.2 "uuid" rfl⟩

/-- Claim C4 is refuted: a `long` annotated with the unrecognized logical tag
`timestamp-micros` does not fall through to the plain mapping
`{"type": "integer"}`; lines 88-91 return `{"type": "string", "format":
"date-time"}` for a `long` with any truthy logical tag. -/
theorem c4_counterexample :
    convertType (.obj [("type", .str "long"), ("logicalType", .str "timestamp-micros")])
      = .ok (.obj [("type", .str "string"), ("format", .str "date-time")])
  ∧ convertType (.obj [("type", .str "long"), ("logicalType", .str "timestamp-micros")])
      ≠ .ok (.obj [("type", .str "integer")]) := by
  have h : convertType (.obj [("type", .str "long"), ("logicalType", .str "timestamp-micros")])
      = .ok (.obj [("type", .str "string"), ("format", .str "date-time")]) := by
    rw [convertType_obj]
    simp +decide [typeIs, logicalIs, jlookup, leafConvert, truthyOpt, JValue.truthy]
  refine ⟨h, ?_⟩
  rw [h]
  intro heq
  simp at heq

/-- Claim C4 amended: a primitive node with a present, truthy, unrecognized
logical tag does not error, but only `bytes` falls through to its plain
mapping; a `long` converts to `{type: string, format: date-time}`, an `int`
to `{type: string, format: date}`, and every other primitive kind to the
conservative `{"type": "string"}` fallback (not its plain mapping). -/
theorem c4_amended (d : List (String × JValue)) (lt : String)
    (hlt : jlookup d "logicalType" = some (.str lt))
    (h1 : lt ≠ "timestamp-millis") (h2 : lt ≠ "date") (h3 : lt ≠ "decimal")
    (hne : lt ≠ "") :
    (jlookup d "type" = some (.str "long") →
       convertType (.obj d) = .ok (.obj [("type", .str "string"), ("format", .str "date-time")]))
  ∧ (jlookup d "type" = some (.str "int") →
       convertType (.obj d) = .ok (.obj [("type", .str "string"), ("format", .str "date")]))
  ∧ (jlookup d "type" = some (.str "bytes") →
       convertType (.obj d) = .ok (.obj [("type", .str "string")]))
  ∧ (∀ k : String, jlookup d "type" = some (.str k) →
       k ∉ (["record", "array", "map", "enum", "bytes", "long", "int"] : List String) →
       convertType (.obj d) = .ok (.obj [("type", .str "string")])) := by
  refine ⟨fun hk => ?_, fun hk => ?_, fun hk => ?_, fun k hk hkn => ?_⟩
  · rw [convertType_obj]
    simp +decide [typeIs_eq d _ hk, logicalIs_eq d _ hlt, leafConvert, h1, h2, h3,
      truthyOpt, JValue.truthy, String.isEmpty_iff, hne, hlt]
  · rw [convertType_obj]
    simp +decide [typeIs_eq d _ hk, logicalIs_eq d _ hlt, leafConvert, h1, h2, h3,
      truthyOpt, JValue.truthy, String.isEmpty_iff, hne, hlt]
  · rw [convertType_obj]
    simp +decide [typeIs_eq d _ hk, logicalIs_eq d _ hlt, leafConvert, h1, h2, h3]
  · have hr : k ≠ "record" := by intro hh; simp [hh] at hkn
    have ha : k ≠ "array" := by intro hh; simp [hh] at hkn
    have hm : k ≠ "map" := by intro hh; simp [hh] at hkn
    have he : k ≠ "enum" := by intro hh; simp [hh] at hkn
    have hb : k ≠ "bytes" := by intro hh; simp [hh] at hkn
    have hlo : k ≠ "long" := by intro hh; simp [hh] at hkn
    have hin : k ≠ "int" := by intro hh; simp [hh] at hkn
    rw [convertType_obj]
    simp [typeIs_eq d _ hk, logicalIs_eq d _ hlt, leafConvert, h1, h2, h3,
      hr, ha, hm, he, hb, hlo, hin]

/-- Witness for C4 at a `long` with logical tag `timestamp-micros` and a
`double` with logical tag `uuid`. -/
theorem c4_witness :
    convertType (.obj [("type", .str "long"), ("logicalType", .str "timestamp-micros")])
      = .ok (.obj [("type", .str "string"), ("format", .str "date-time")])
  ∧ convertType (.obj [("type", .str "double"), ("logicalType", .str "uuid")])
      = .ok (.obj [("type", .str "string")]) :=
  ⟨(c4_amended [("type", .str "long"), ("logicalType", .str "timestamp-micros")]
      "timestamp-micros" rfl (by decide) (by decide) (by decide) (by decide)).1 rfl,
   (c4_amended [("type", .str "double"), ("logicalType", .str "uuid")]
      "uuid" rfl (by decide) (by decide) (by decide) (by decide)).2.2.2 "double" rfl
      (by decide)⟩

/-- Claim C7: for every primitive node carrying a recognized logical-type
tag, conversion yields exactly the overriding fragment of the fixed table
(lines 79-84), regardless of the underlying primitive kind:
`timestamp-millis` → `{type: string, format: date-time}`, `date` →
`{type: string, format: date}`, `decimal` → `{type: string, description:
"Decimal value as string"}`. -/
theorem c7_logical_table (d : List (String × JValue)) (k : String)
    (hk : jlookup d "type" = some (.str k))
    (hprim : k ∈ (["string", "int", "long", "float", "double", "boolean",
                   "bytes", "null"] : List String)) :
    (jlookup d "logicalType" = some (.str "timestamp-millis") →
       convertType (.obj d) = .ok (.obj [("type", .str "string"), ("format", .str "date-time")]))
  ∧ (jlookup d "logicalType" = some (.str "date") →
       convertType (.obj d) = .ok (.obj [("type", .str "string"), ("format", .str "date")]))
  ∧ (jlookup d "logicalType" = some (.str "decimal") →
       convertType (.obj d) = .ok (.obj [("type", .str "string"),
                                         ("description", .str "Decimal value as string")])) := by
  have hr : k ≠ "record" := by rintro rfl; simp at hprim
  have ha : k ≠ "array" := by rintro rfl; simp at hprim
  have hm : k ≠ "map" := by rintro rfl; simp at hprim
  have he : k ≠ "enum" := by rintro rfl; simp at hprim
  refine ⟨fun hl => ?_, fun hl => ?_, fun hl => ?_⟩
  all_goals rw [convertType_obj]
  all_goals simp +decide [typeIs_eq d _ hk, logicalIs_eq d _ hl, leafConvert, hr, ha, hm, he]

/-- Witness for C7 at a `bytes` primitive tagged `decimal` and a `long`
tagged `timestamp-millis`. -/
theorem c7_witness :
    convertType (.obj [("type", .str "bytes"), ("logicalType", .str "decimal")])
      = .ok (.obj [("type", .str "string"), ("description", .str "Decimal value as string")])
  ∧ convertType (.obj [("type", .str "long"), ("logicalType", .str "timestamp-millis")])
      = .ok (.obj [("type", .str "string"), ("format", .str "date-time")]) :=
  ⟨(c7_logical_table [("type", .str "bytes"), ("logicalType", .str "decimal")]
      "bytes" rfl (by decide)).2.2 rfl,
   (c7_logical_table [("type", .str "long"), ("logicalType", .str "timestamp-millis")]
      "long" rfl (by decide)).1 rfl⟩

/-- Claim C3 is refuted: a mapping node that declares kind `array` but lacks
`items` does not convert to the conservative `{"type": "string"}`;
`avro_type["items"]` on line 67 raises a `KeyError` that propagates. -/
theorem c3_counterexample :
    convertType (.obj [("type", .str "array")]) = .error "KeyError: items"
  ∧ convertType (.obj [("type", .str "array")]) ≠ .ok (.obj [("type", .str "string")]) := by
  have h : convertType (.obj [("type", .str "array")]) = .error "KeyError: items" := by
    rw [convertType_obj]
    simp +decide [typeIs, jlookup]
  refine ⟨h, ?_⟩
  rw [h]
  intro heq
  cases heq

/-- Claim C3 amended: conversion never raises on a node that matches no
recognized shape at the dispatch level — unknown bare kind names, mappings
whose `type`/`logicalType` match none of the handled cases, unions without
exactly one non-null alternative, and non-string/mapping/list values all
fail closed to `{"type": "string"}` — but a mapping whose declared kind is
`array`, `map` or `enum` and which lacks the `items`/`values`/`symbols`
attribute its kind needs raises a key-lookup error that propagates out of
the recursive conversion. -/
theorem c3_amended :
    (∀ d : List (String × JValue), typeIs d "array" = true → jlookup d "items" = none →
        convertType (.obj d) = .error "KeyError: items")
  ∧ (∀ d : List (String × JValue), typeIs d "map" = true → jlookup d "values" = none →
        convertType (.obj d) = .error "KeyError: values")
  ∧ (∀ d : List (String × JValue), typeIs d "enum" = true → jlookup d "symbols" = none →
        convertType (.obj d) = .error "KeyError: symbols")
  ∧ (∀ s : String, tblLookup avro_type_map s = none →
        convertType (.str s) = .ok (.obj [("type", .str "string")]))
  ∧ (∀ d : List (String × JValue),
        typeIs d "record" = false → typeIs d "array" = false → typeIs d "map" = false →
        typeIs d "enum" = false → typeIs d "bytes" = false → typeIs d "long" = false →
        typeIs d "int" = false → logicalIs d "timestamp-millis" = false →
        logicalIs d "date" = false → logicalIs d "decimal" = false →
        convertType (.obj d) = .ok (.obj [("type", .str "string")]))
  ∧ (convertType .null = .ok (.obj [("type", .str "string")])
     ∧ ∀ b : Bool, convertType (.bool b) = .ok (.obj [("type", .str "string")]))
  ∧ (∀ alts : List JValue,
        (∀ inner : JValue, alts.filter (fun t => !isNullMarker t) ≠ [inner]) →
        convertType (.arr alts) = .ok (.obj [("type", .str "string")])) := by
  refine ⟨fun d hta hi => ?_, fun d htm hv => ?_, fun d hte hs => ?_, fun s hs => ?_,
          fun d h1 h2 h3 h4 h5 h6 h7 h8 h9 h10 => ?_,
          ⟨convertType_null, convertType_bool⟩, fun alts hne => ?_⟩
  · have h0 : typeIs d "record" = false := typeIs_unique hta (by decide)
    rw [convertType_obj]
    simp [h0, hta, hi]
  · have h0 : typeIs d "record" = false := typeIs_unique htm (by decide)
    have h1 : typeIs d "array" = false := typeIs_unique htm (by decide)
    rw [convertType_obj]
    simp [h0, h1, htm, hv]
  · have h0 : typeIs d "record" = false := typeIs_unique hte (by decide)
    have h1 : typeIs d "array" = false := typeIs_unique hte (by decide)
    have h2 : typeIs d "map" = false := typeIs_unique hte (by decide)
    rw [convertType_obj]
    simp [h0, h1, h2, hte, leafConvert, hs]
  · rw [convertType_str]
    unfold primFrag
    rw [hs]
  · rw [convertType_obj]
    simp [h1, h2, h3, h4, h5, h6, h7, h8, h9, h10, leafConvert]
  · rw [convertType_arr]
    rcases hfe : alts.filter (fun t => !isNullMarker t) with _ | ⟨a, _ | ⟨b, m⟩⟩
    · rfl
    · exact (hne a hfe).elim
    · rfl

/-- Witness for C3 at a `map` without `values`, an `enum` without `symbols`,
an unrecognized mapping, and an empty union. -/
theorem c3_witness :
    convertType (.obj [("type", .str "map")]) = .error "KeyError: values"
  ∧ convertType (.obj [("type", .str "enum"), ("name", .str "E")]) = .error "KeyError: symbols"
  ∧ convertType (.obj [("type", .str "unrecognized")]) = .ok (.obj [("type", .str "string")])
  ∧ convertType (.arr []) = .ok (.obj [("type", .str "string")]) :=
  ⟨c3_amended.2.1 [("type", .str "map")] rfl rfl,
   c3_amended.2.2.1 [("type", .str "enum"), ("name", .str "E")] rfl rfl,
   c3_amended.2.2.2.2.1 [("type", .str "unrecognized")]
     rfl rfl rfl rfl rfl rfl rfl rfl rfl rfl,
   c3_amended.2.2.2.2.2.2 [] (by intro inner h; simp at h)⟩

/-- Claim C6: for every union node (two or more alternatives, per the data
model) in which exactly one alternative is not the null-marker, the
converted fragment equals the conversion of that single non-null
alternative, the union tests as optional, and a field so typed is excluded
from the record's `required` list (regardless of any default). -/
theorem c6_nullable_union (alts : List JValue) (inner : JValue)
    (hlen : 2 ≤ alts.length)
    (hone : alts.filter (fun t => !isNullMarker t) = [inner]) :
    convertType (.arr alts) = convertType inner
  ∧ isOptionalType (.arr alts) = true
  ∧ (∀ (fobj : List (String × JValue)) (n : String)
       (props props' : List (String × JValue)) (req req' : List String),
       jlookup fobj "name" = some (.str n) →
       jlookup fobj "type" = some (.arr alts) →
       convertFields [.obj fobj] props req = .ok (props', req') →
       req' = req) := by
  have hopt : isOptionalType (.arr alts) = true := by
    by_cases hany : alts.any isNullMarker
    · simpa [isOptionalType] using hany
    · exfalso
      have hall : ∀ x ∈ alts, isNullMarker x = false := by
        intro x hx
        have := List.any_eq_false.mp (Bool.eq_false_iff.mpr hany) x hx
        simpa using this
      have hself : alts.filter (fun t => !isNullMarker t) = alts :=
        List.filter_eq_self.mpr (by intro a ha; simp [hall a ha])
      rw [hself] at hone
      rw [hone] at hlen
      simp at hlen
  refine ⟨?_, hopt, ?_⟩
  · rw [convertType_arr, hone]
  · intro fobj n props props' req req' hn ht hcf
    have hr := convertFields_req [.obj fobj] props props' req req' hcf
    rw [hr]
    simp [requiredNames, fieldRequiredName, hn, ht, hopt]

/-- Witness for C6 at the union `["null", "string"]` over a single-field
record. -/
theorem c6_witness :
    convertType (.arr [.str "null", .str "string"]) = convertType (.str "string")
  ∧ isOptionalType (.arr [.str "null", .str "string"]) = true
  ∧ ([] : List String) = [] := by
  have hcf : convertFields [.obj [("name", .str "s"),
        ("type", .arr [.str "null", .str "string"])]] [] []
      = .ok ([("s", .obj [("type", .str "string")])], []) := by
    rw [fieldStep _ _ _ _ "s" (.arr [.str "null", .str "string"])
          (.obj [("type", .str "string")]) (by rfl) (by rfl)
          (by rw [convertType_arr]; show convertType (JValue.str "string") = _;
              rw [convertType_str]; rfl)]
    rw [convertFields_nil]
    rfl
  refine ⟨(c6_nullable_union [.str "null", .str "string"] (.str "string") (by decide) rfl).1,
          (c6_nullable_union [.str "null", .str "string"] (.str "string") (by decide) rfl).2.1,
          (c6_nullable_union [.str "null", .str "string"] (.str "string") (by decide) rfl).2.2
            [("name", .str "s"), ("type", .arr [.str "null", .str "string"])] "s"
            [] [("s", .obj [("type", .str "string")])] [] [] rfl rfl hcf⟩

/-- Claim C2 is refuted: for the union `["null", "string", "int"]` (two
non-null alternatives plus the null-marker) conversion does return the
placeholder `{"type": "string"}`, but a field of this type with no default
is NOT included in `required` — line 115 classifies any list containing
`"null"` as optional, so the record fragment below carries no `required`
key at all. -/
theorem c2_counterexample :
    convertType (.arr [.str "null", .str "string", .str "int"])
      = .ok (.obj [("type", .str "string")])
  ∧ convertRecord [("type", .str "record"),
      ("fields", .arr [.obj [("name", .str "f"),
                             ("type", .arr [.str "null", .str "string", .str "int"])]])]
      = .ok (.obj [("type", .str "object"),
                   ("properties", .obj [("f", .obj [("type", .str "string")])])]) := by
  have hu : convertType (.arr [.str "null", .str "string", .str "int"])
      = .ok (.obj [("type", .str "string")]) := by
    rw [convertType_arr]
    rfl
  have hcf : convertFields [.obj [("name", .str "f"),
        ("type", .arr [.str "null", .str "string", .str "int"])]] [] []
      = .ok ([("f", .obj [("type", .str "string")])], []) := by
    rw [fieldStep _ _ _ _ "f" (.arr [.str "null", .str "string", .str "int"])
          (.obj [("type", .str "string")]) (by rfl) (by rfl) hu]
    rw [convertFields_nil]
    rfl
  refine ⟨hu, ?_⟩
  rw [convertRecord_fields_ok _ _ _ _ (by rfl) hcf]
  rfl

/-- Claim C2 amended: a union with two or more non-null alternatives
converts to the placeholder `{"type": "string"}`, and a field of that type
joins `required` exactly when it has no default value AND the union does
not contain the null-marker; when the union contains the null-marker the
field is classified optional and excluded from `required` even though its
fragment is the placeholder. -/
theorem c2_amended (alts : List JValue)
    (h2 : 2 ≤ (alts.filter (fun t => !isNullMarker t)).length) :
    convertType (.arr alts) = .ok (.obj [("type", .str "string")])
  ∧ (∀ (fobj : List (String × JValue)) (n : String)
       (props props' : List (String × JValue)) (req req' : List String),
       jlookup fobj "name" = some (.str n) →
       jlookup fobj "type" = some (.arr alts) →
       convertFields [.obj fobj] props req = .ok (props', req') →
       req' = (if !(alts.any isNullMarker) && !hasKey fobj "default"
               then req ++ [n] else req)) := by
  constructor
  · rw [convertType_arr]
    rcases hfe : alts.filter (fun t => !isNullMarker t) with _ | ⟨a, _ | ⟨b, m⟩⟩
    all_goals try (rw [hfe] at h2; simp at h2)
    all_goals rfl
  · intro fobj n props props' req req' hn ht hcf
    have hr := convertFields_req [.obj fobj] props props' req req' hcf
    have hname : fieldRequiredName (.obj fobj)
        = (if !(alts.any isNullMarker) && !hasKey fobj "default" then some n else none) := by
      simp only [fieldRequiredName, hn, ht, isOptionalType]
    have hrn : requiredNames [.obj fobj]
        = (if !(alts.any isNullMarker) && !hasKey fobj "default" then [n] else []) := by
      simp only [requiredNames, List.filterMap_cons, hname, List.filterMap_nil]
      by_cases hc : (!(alts.any isNullMarker) && !hasKey fobj "default") = true
      · simp [hc]
      · simp only [Bool.not_eq_true] at hc
        simp [hc]
    rw [hr, hrn]
    by_cases hc : (!(alts.any isNullMarker) && !hasKey fobj "default") = true
    · simp [hc]
    · simp only [Bool.not_eq_true] at hc
      simp [hc]

/-- Witness for C2 at the union `["null", "string", "int"]` over a
single-field record with no default: the field stays out of `required`. -/
theorem c2_witness :
    convertType (.arr [.str "null", .str "string", .str "int"])
      = .ok (.obj [("type", .str "string")])
  ∧ ([] : List String)
      = (if !([JValue.str "null", JValue.str "string", JValue.str "int"].any isNullMarker)
             && !hasKey [("name", JValue.str "f"),
                         ("type", JValue.arr [.str "null", .str "string", .str "int"])] "default"
         then ([] : List String) ++ ["f"] else ([] : List String)) := by
  have hcf : convertFields [.obj [("name", .str "f"),
        ("type", .arr [.str "null", .str "string", .str "int"])]] [] []
      = .ok ([("f", .obj [("type", .str "string")])], []) := by
    rw [fieldStep _ _ _ _ "f" (.arr [.str "null", .str "string", .str "int"])
          (.obj [("type", .str "string")]) (by rfl) (by rfl)
          (by rw [convertType_arr]; rfl)]
    rw [convertFields_nil]
    rfl
  exact ⟨(c2_amended [.str "null", .str "string", .str "int"] (by decide)).1,
         (c2_amended [.str "null", .str "string", .str "int"] (by decide)).2
           [("name", .str "f"), ("type", .arr [.str "null", .str "string", .str "int"])]
           "f" [] [("f", .obj [("type", .str "string")])] [] [] rfl rfl hcf⟩

/-- Claim C5 is refuted: a field with the non-union type `"string"` and the
default `"hello"` is NOT folded into `required` — line 117 requires
`"default" not in field`, so requiredness is not derived purely from the
type shape.  The record fragment below carries no `required` key at all
(the property does carry the default). -/
theorem c5_counterexample :
    convertRecord [("type", .str "record"),
      ("fields", .arr [.obj [("name", .str "x"), ("type", .str "string"),
                             ("default", .str "hello")]])]
      = .ok (.obj [("type", .str "object"),
                   ("properties", .obj [("x", .obj [("type", .str "string"),
                                                    ("default", .str "hello")])])]) := by
  have hcf : convertFields [.obj [("name", .str "x"), ("type", .str "string"),
        ("default", .str "hello")]] [] []
      = .ok ([("x", .obj [("type", .str "string"), ("default", .str "hello")])], []) := by
    rw [fieldStep _ _ _ _ "x" (.str "string") (.obj [("type", .str "string")])
          (by rfl) (by rfl) (by rw [convertType_str]; rfl)]
    rw [convertFields_nil]
    rfl
  rw [convertRecord_fields_ok _ _ _ _ (by rfl) hcf]
  rfl

/-- Claim C5 amended: a field whose type is not classified optional is in
`required` only when it also has no default; with a default present it is
excluded from `required` regardless of its type shape. -/
theorem c5_amended (fobj : List (String × JValue)) (n : String) (t : JValue)
    (hn : jlookup fobj "name" = some (.str n))
    (ht : jlookup fobj "type" = some t)
    (hd : hasKey fobj "default" = true) :
    ∀ (props props' : List (String × JValue)) (req req' : List String),
      convertFields [.obj fobj] props req = .ok (props', req') →
      req' = req := by
  intro props props' req req' hcf
  have hr := convertFields_req [.obj fobj] props props' req req' hcf
  rw [hr]
  simp [requiredNames, fieldRequiredName, hn, ht, hd]

/-- Witness for C5 at the string-typed field `x` with default `"hello"`. -/
theorem c5_witness :
    hasKey [("name", JValue.str "x"), ("type", JValue.str "string"),
            ("default", JValue.str "hello")] "default" = true
  ∧ ([] : List String) = [] := by
  have hcf : convertFields [.obj [("name", .str "x"), ("type", .str "string"),
        ("default", .str "hello")]] [] []
      = .ok ([("x", .obj [("type", .str "string"), ("default", .str "hello")])], []) := by
    rw [fieldStep _ _ _ _ "x" (.str "string") (.obj [("type", .str "string")])
          (by rfl) (by rfl) (by rw [convertType_str]; rfl)]
    rw [convertFields_nil]
    rfl
  exact ⟨rfl,
    c5_amended [("name", .str "x"), ("type", .str "string"), ("default", .str "hello")]
      "x" (.str "string") rfl rfl rfl
      [] [("x", .obj [("type", .str "string"), ("default", .str "hello")])] [] [] hcf⟩

/-- Claim C1: for every record node whose `fields` attribute is a list, a
successful conversion produces a fragment whose `required` attribute holds
exactly the names of the fields whose derived optionality flag is false
(type not a union containing the null-marker, and no default present),
each once, in field-declaration order (`requiredNames`); when no field
qualifies, the `required` attribute is absent, so every other field name
is absent from `required`. -/
theorem c1_required_characterization (record : List (String × JValue))
    (fields : List JValue) (result : JValue)
    (hf : jlookup record "fields" = some (.arr fields))
    (hok : convertRecord record = .ok result) :
    jGet? result "required" =
      (if requiredNames fields = [] then none
       else some (.arr ((requiredNames fields).map JValue.str))) := by
  rw [convertRecord_eq, hf] at hok
  rcases hcf : convertFields fields [] [] with e | ⟨props, req⟩
  · simp only [hcf] at hok
    cases hok
  · simp only [hcf] at hok
    have hreq := convertFields_req fields [] props [] req hcf
    simp only [List.nil_append] at hreq
    cases hok
    rw [recordResult_required, hreq]

/-- Witness for C1 on a three-field record: a required string field `a`, a
nullable-union field `b`, and a defaulted field `c`; `required` is exactly
`["a"]`. -/
theorem c1_witness :
    jlookup [("type", JValue.str "record"),
      ("fields", JValue.arr [.obj [("name", .str "a"), ("type", .str "string")],
                             .obj [("name", .str "b"), ("type", .arr [.str "null", .str "long"])],
                             .obj [("name", .str "c"), ("type", .str "int"), ("default", .num 1)]])]
      "fields"
      = some (.arr [.obj [("name", .str "a"), ("type", .str "string")],
                    .obj [("name", .str "b"), ("type", .arr [.str "null", .str "long"])],
                    .obj [("name", .str "c"), ("type", .str "int"), ("default", .num 1)]])
  ∧ jGet? (.obj [("type", .str "object"),
        ("properties", .obj [("a", .obj [("type", .str "string")]),
                             ("b", .obj [("type", .str "integer")]),
                             ("c", .obj [("type", .str "integer"), ("default", .num 1)])]),
        ("required", .arr [.str "a"])]) "required"
      = some (.arr [.str "a"]) := by
  have hb : convertType (.arr [JValue.str "null", JValue.str "long"])
      = .ok (.obj [("type", .str "integer")]) := by
    rw [convertType_arr]
    show convertType (JValue.str "long") = _
    rw [convertType_str]
    rfl
  have hcf : convertFields
      [.obj [("name", .str "a"), ("type", .str "string")],
       .obj [("name", .str "b"), ("type", .arr [.str "null", .str "long"])],
       .obj [("name", .str "c"), ("type", .str "int"), ("default", .num 1)]] [] []
      = .ok ([("a", .obj [("type", .str "string")]),
              ("b", .obj [("type", .str "integer")]),
              ("c", .obj [("type", .str "integer"), ("default", .num 1)])], ["a"]) := by
    rw [fieldStep _ _ _ _ "a" (.str "string") (.obj [("type", .str "string")])
          (by rfl) (by rfl) (by rw [convertType_str]; rfl)]
    rw [fieldStep _ _ _ _ "b" (.arr [.str "null", .str "long"]) (.obj [("type", .str "integer")])
          (by rfl) (by rfl) hb]
    rw [fieldStep _ _ _ _ "c" (.str "int") (.obj [("type", .str "integer")])
          (by rfl) (by rfl) (by rw [convertType_str]; rfl)]
    rw [convertFields_nil]
    rfl
  have hok : convertRecord [("type", JValue.str "record"),
      ("fields", JValue.arr [.obj [("name", .str "a"), ("type", .str "string")],
                             .obj [("name", .str "b"), ("type", .arr [.str "null", .str "long"])],
                             .obj [("name", .str "c"), ("type", .str "int"), ("default", .num 1)]])]
      = .ok (.obj [("type", .str "object"),
          ("properties", .obj [("a", .obj [("type", .str "string")]),
                               ("b", .obj [("type", .str "integer")]),
                               ("c", .obj [("type", .str "integer"), ("default", .num 1)])]),
          ("required", .arr [.str "a"])]) := by
    rw [convertRecord_fields_ok _ _ _ _ (by rfl) hcf]
    rfl
  have happ := c1_required_characterization
    [("type", JValue.str "record"),
     ("fields", JValue.arr [.obj [("name", .str "a"), ("type", .str "string")],
                            .obj [("name", .str "b"), ("type", .arr [.str "null", .str "long"])],
                            .obj [("name", .str "c"), ("type", .str "int"), ("default", .num 1)]])]
    [.obj [("name", .str "a"), ("type", .str "string")],
     .obj [("name", .str "b"), ("type", .arr [.str "null", .str "long"])],
     .obj [("name", .str "c"), ("type", .str "int"), ("default", .num 1)]]
    (.obj [("type", .str "object"),
        ("properties", .obj [("a", .obj [("type", .str "string")]),
                             ("b", .obj [("type", .str "integer")]),
                             ("c", .obj [("type", .str "integer"), ("default", .num 1)])]),
        ("required", .arr [.str "a"])])
    rfl hok
  exact ⟨rfl, happ⟩

/-- Claim C9: with inlining disabled, the producer document's single message
payload is exactly `{schemaFormat: <avro-json content type>, schema:
{$ref: <registry locator for the channel's subject>}}` — no inlined schema
body appears in the payload, whatever the local schema and whatever a fetch
would have returned. -/
theorem c9_externalized_reference (localSchema : JValue) (registry_url : String)
    (fetched : Option JValue) :
    messagePayload (generate_producer_spec localSchema registry_url false fetched).1
      = some (.obj [("schemaFormat", .str avroMime),
                    ("schema", .obj [("$ref", .str (ordersSubjectUrl registry_url))])]) := rfl

/-- Claim C10: when inlining is requested but the registry fetch returns no
schema, the assembled payload embeds the locally loaded schema document —
no reference locator is invented — and the warning is signaled. -/
theorem c10_inline_fetch_failure (localSchema : JValue) (registry_url : String) :
    messagePayload (generate_producer_spec localSchema registry_url true none).1
      = some (.obj [("schemaFormat", .str avroMime), ("schema", localSchema)])
  ∧ (generate_producer_spec localSchema registry_url true none).2
      = ["Warning: Could not fetch from registry, using local file"] := ⟨rfl, rfl⟩
